import Mathlib

/-!
Verification of the thermal-conduction utility functions of
`ht/conduction.py` (ChEDL heat-transfer library).

The Python module computes with IEEE-754 doubles.  Here its arithmetic is
embedded exactly: the purely algebraic functions over the rationals `ℚ`
(with the `scipy.constants` values as exact decimal rationals), and
`R_cylinder`, which needs `log` and `pi`, over the reals `ℝ`.

Python float division raises `ZeroDivisionError` on a zero divisor and
`math.log` raises `ValueError` on a non-positive argument.  The `...E`
variants below model this exception behaviour with `Option`, `none`
standing for a raised exception and `some x` for a normal return.
-/

open scoped Classical

namespace ht

/-- scipy.constants.inch, exactly 0.0254 (metres per inch). -/
def inch : ℚ := 127 / 5000

/-- scipy.constants.foot, exactly 0.3048 (metres per foot). -/
def foot : ℚ := 381 / 1250

/-- scipy.constants.hour, exactly 3600 (seconds per hour). -/
def hour : ℚ := 3600

/-- scipy.constants.Btu, exactly 1055.05585262 (joules per BTU). -/
def Btu : ℚ := 105505585262 / 100000000

/-- scipy.constants.degree_Fahrenheit, the Fahrenheit increment 5/9 K. -/
def degree_Fahrenheit : ℚ := 5 / 9

/-- Embeds `R_to_k(R, t, A=1.)`: `k = t/(A*R)`. -/
def R_to_k (R t A : ℚ) : ℚ := t / (A * R)

/-- Embeds `k_to_R(k, t, A=1.)`: `R = t/(k*A)`. -/
def k_to_R (k t A : ℚ) : ℚ := t / (k * A)

/-- Embeds `k_to_thermal_resistivity(k)`: `r = 1./k`. -/
def k_to_thermal_resistivity (k : ℚ) : ℚ := 1 / k

/-- Embeds `thermal_resistivity_to_k(r)`: `k = 1./r`. -/
def thermal_resistivity_to_k (r : ℚ) : ℚ := 1 / r

/-- Embeds `R_value_to_k(R_value, SI=True)`: scale the R-value into a
thermal resistivity `r`, then return `thermal_resistivity_to_k(r)`. -/
def R_value_to_k (R_value : ℚ) (SI : Bool) : ℚ :=
  let r : ℚ :=
    if SI then R_value / inch
    else R_value * foot ^ 2 * degree_Fahrenheit * hour / Btu / inch
  thermal_resistivity_to_k r

/-- Embeds `k_to_R_value(k, SI=True)`: `r = k_to_thermal_resistivity(k)`,
then rescale `r` back into an R-value. -/
def k_to_R_value (k : ℚ) (SI : Bool) : ℚ :=
  let r : ℚ := k_to_thermal_resistivity k
  if SI then r * inch
  else r / (foot ^ 2 * degree_Fahrenheit * hour / Btu / inch)

/-- Embeds `R_cylinder(Di, Do, k, L)`: `hA = k*2*pi*L/log(Do/Di)`,
returns `R = 1./hA`, over the reals. -/
noncomputable def R_cylinder (Di Do k L : ℝ) : ℝ :=
  let hA : ℝ := k * 2 * Real.pi * L / Real.log (Do / Di)
  1 / hA

/-- Exception-aware model of `k_to_thermal_resistivity`: Python raises
`ZeroDivisionError` on `1./k` when `k == 0`. -/
def k_to_thermal_resistivityE (k : ℚ) : Option ℚ :=
  if k = 0 then none else some (1 / k)

/-- Exception-aware model of `thermal_resistivity_to_k`: Python raises
`ZeroDivisionError` on `1./r` when `r == 0`. -/
def thermal_resistivity_to_kE (r : ℚ) : Option ℚ :=
  if r = 0 then none else some (1 / r)

/-- Exception-aware model of `R_cylinder`: Python raises
`ZeroDivisionError` on `Do/Di` when `Di == 0`, `ValueError` on
`log(Do/Di)` when `Do/Di <= 0`, `ZeroDivisionError` on
`k*2*pi*L/log(Do/Di)` when `log(Do/Di) == 0`, and `ZeroDivisionError`
on `1./hA` when `hA == 0`. -/
noncomputable def R_cylinderE (Di Do k L : ℝ) : Option ℝ :=
  if Di = 0 then none
  else if Do / Di ≤ 0 then none
  else if Real.log (Do / Di) = 0 then none
  else if k * 2 * Real.pi * L / Real.log (Do / Di) = 0 then none
  else some (1 / (k * 2 * Real.pi * L / Real.log (Do / Di)))

/-- C6: for every nonzero `R` and `A` and every `t`, `R_to_k(R, t, A)`
returns `t/(A*R)`; in particular `R_to_k(0.05, 0.025)` with the default
area `A = 1` is exactly `0.5`. -/
theorem R_to_k_spec :
    (∀ R t A : ℚ, R ≠ 0 → A ≠ 0 → R_to_k R t A = t / (A * R)) ∧
    R_to_k 0.05 0.025 1 = 0.5 := by
  constructor
  · intro R t A _ _
    rfl
  · norm_num [R_to_k]

/-- Witness for C6 at `R = 3`, `t = 5`, `A = 7`. -/
theorem R_to_k_spec_witness : R_to_k 3 5 7 = 5 / (7 * 3) :=
  R_to_k_spec.1 3 5 7 (by norm_num) (by norm_num)

/-- C9: `R_to_k` and `k_to_R` are extensionally the same function:
both compute `t` divided by the product of the first argument and `A`. -/
theorem R_to_k_eq_k_to_R : ∀ x t A : ℚ, R_to_k x t A = k_to_R x t A := by
  intro x t A
  unfold R_to_k k_to_R
  ring_nf

/-- C5: for positive `R`, `t`, `A`, converting a resistance to a
conductivity and back returns the original resistance exactly. -/
theorem k_to_R_roundtrip (R t A : ℚ) (_hR : 0 < R) (ht : 0 < t)
    (hA : 0 < A) : k_to_R (R_to_k R t A) t A = R := by
  unfold R_to_k k_to_R
  field_simp
  ring

/-- Witness for C5 at the documented example `R = 0.05`, `t = 0.025`,
`A = 1`. -/
theorem k_to_R_roundtrip_witness :
    k_to_R (R_to_k 0.05 0.025 1) 0.025 1 = 0.05 :=
  k_to_R_roundtrip 0.05 0.025 1 (by norm_num) (by norm_num) (by norm_num)

/-- C7: a conductivity-to-resistivity round trip is the identity on
positive inputs (both functions are reciprocals), and either function
hits division by zero exactly when its input is zero. -/
theorem resistivity_inverse :
    (∀ k : ℚ, 0 < k →
      thermal_resistivity_to_k (k_to_thermal_resistivity k) = k) ∧
    (∀ k : ℚ, k_to_thermal_resistivityE k = none ↔ k = 0) ∧
    (∀ r : ℚ, thermal_resistivity_to_kE r = none ↔ r = 0) := by
  refine ⟨fun k _ => ?_, fun k => ?_, fun r => ?_⟩
  · unfold thermal_resistivity_to_k k_to_thermal_resistivity
    rw [one_div_one_div]
  · unfold k_to_thermal_resistivityE
    split_ifs with h <;> simp [h]
  · unfold thermal_resistivity_to_kE
    split_ifs with h <;> simp [h]

/-- Witness for C7 at the documented example `k = 0.25`. -/
theorem resistivity_inverse_witness :
    thermal_resistivity_to_k (k_to_thermal_resistivity 0.25) = 0.25 :=
  resistivity_inverse.1 0.25 (by norm_num)

/-- C1: `R_value_to_k` inverts the scaled resistivity, with the SI branch
dividing by `inch` and the Imperial branch applying the
foot/Fahrenheit/hour/BTU conversion; the two documented example values
hold to better than `10⁻¹⁵`. -/
theorem R_value_to_k_spec :
    (∀ R : ℚ, R_value_to_k R true = 1 / (R / inch)) ∧
    (∀ R : ℚ, R_value_to_k R false =
      1 / (R * foot ^ 2 * degree_Fahrenheit * hour / Btu / inch)) ∧
    |R_value_to_k 0.12 true - 0.2116666666666667| < 1 / 10 ^ 15 ∧
    |R_value_to_k 0.71 false - 0.20313787163983468| < 1 / 10 ^ 15 := by
  refine ⟨fun R => rfl, fun R => rfl, ?_, ?_⟩
  · norm_num [R_value_to_k, thermal_resistivity_to_k, inch, abs_lt]
  · norm_num [R_value_to_k, thermal_resistivity_to_k, inch, foot, hour,
      Btu, degree_Fahrenheit, abs_lt]

/-- C2: for positive `x` and a matching `SI` flag, converting an R-value
to a conductivity and back returns `x` exactly. -/
theorem k_to_R_value_roundtrip (x : ℚ) (SI : Bool) (hx : 0 < x) :
    k_to_R_value (R_value_to_k x SI) SI = x := by
  have hx0 : x ≠ 0 := ne_of_gt hx
  cases SI
  · simp only [R_value_to_k, k_to_R_value, thermal_resistivity_to_k,
      k_to_thermal_resistivity, inch, foot, hour, Btu, degree_Fahrenheit,
      Bool.false_eq_true, if_false]
    field_simp
    ring
  · simp only [R_value_to_k, k_to_R_value, thermal_resistivity_to_k,
      k_to_thermal_resistivity, inch, if_true]
    field_simp

/-- Witness for C2 at `x = 0.12` with `SI = true`. -/
theorem k_to_R_value_roundtrip_witness :
    k_to_R_value (R_value_to_k 0.12 true) true = 0.12 :=
  k_to_R_value_roundtrip 0.12 true (by norm_num)

/-- C8: the ratio of the Imperial to the SI conversion at a unit R-value
is the fixed constant 5.678263341113488 (to better than `10⁻¹²`),
determined by the unit-conversion factors alone. -/
theorem R_value_unit_ratio :
    |R_value_to_k 1 false / R_value_to_k 1 true - 5.678263341113488| <
      1 / 10 ^ 12 := by
  norm_num [R_value_to_k, thermal_resistivity_to_k, inch, foot, hour,
    Btu, degree_Fahrenheit, abs_lt]

/-- The cylinder resistance as a single quotient: inverting the
conductance `hA` gives `log(Do/Di)` over `2·pi·L·k`. -/
theorem R_cylinder_eq (Di Do k L : ℝ) :
    R_cylinder Di Do k L = Real.log (Do / Di) / (2 * Real.pi * L * k) := by
  simp only [R_cylinder]
  rw [one_div_div]
  ring

/-- Lower bound for `log(10/9)`, via `2^19 < (10/9)^125` and the Mathlib
decimal bound on `log 2`. -/
theorem log_ten_ninths_gt : (0.1053583 : ℝ) < Real.log (10 / 9) := by
  have h2 : (2 : ℝ) ^ (19 : ℕ) < ((10 : ℝ) / 9) ^ (125 : ℕ) := by
    rw [div_pow, lt_div_iff₀ (by positivity)]
    norm_num
  have h3 := Real.log_lt_log (by positivity) h2
  rw [Real.log_pow, Real.log_pow] at h3
  push_cast at h3
  have hl2 := Real.log_two_gt_d9
  linarith

set_option maxHeartbeats 1000000 in
/-- Upper bound for `log(10/9)`, via `(10/9)^2546 < 2^387` and the
Mathlib decimal bound on `log 2`. -/
theorem log_ten_ninths_lt : Real.log (10 / 9) < (0.1053606 : ℝ) := by
  have h2 : ((10 : ℝ) / 9) ^ (2546 : ℕ) < (2 : ℝ) ^ (387 : ℕ) := by
    rw [div_pow, div_lt_iff₀ (by positivity)]
    norm_num
  have h3 := Real.log_lt_log (by positivity) h2
  rw [Real.log_pow, Real.log_pow] at h3
  push_cast at h3
  have hl2 := Real.log_two_lt_d9
  linarith

/-- C3: `R_cylinder(Di, Do, k, L)` equals `log(Do/Di)/(2·pi·L·k)`, and at
the documented example `(0.9, 1, 20, 10)` its exact real value agrees
with 8.38432343682705e-5 to within `10⁻⁸`. -/
theorem R_cylinder_spec :
    (∀ Di Do k L : ℝ,
      R_cylinder Di Do k L = Real.log (Do / Di) / (2 * Real.pi * L * k)) ∧
    |R_cylinder 0.9 1 20 10 - 8.38432343682705e-5| < 1e-8 := by
  refine ⟨R_cylinder_eq, ?_⟩
  have he : R_cylinder 0.9 1 20 10 =
      Real.log (10 / 9) / (2 * Real.pi * 10 * 20) := by
    rw [R_cylinder_eq]
    norm_num
  have hl := log_ten_ninths_gt
  have hu := log_ten_ninths_lt
  have hπl := Real.pi_gt_d6
  have hπu := Real.pi_lt_d6
  have hD : (0 : ℝ) < 2 * Real.pi * 10 * 20 := by positivity
  rw [he, abs_lt]
  constructor
  · have hb : (8.38432343682705e-5 - 1e-8 : ℝ) * (2 * Real.pi * 10 * 20) <
        Real.log (10 / 9) := by nlinarith
    have hx := (lt_div_iff₀ hD).mpr hb
    linarith
  · have hb : Real.log (10 / 9) <
        (8.38432343682705e-5 + 1e-8 : ℝ) * (2 * Real.pi * 10 * 20) := by
      nlinarith
    have hx := (div_lt_iff₀ hD).mpr hb
    linarith

/-- C10: swapping the diameters negates the cylinder resistance, and with
`Do < Di` (and positive `k`, `L`) the function silently returns a
negative resistance. -/
theorem R_cylinder_antisymm :
    (∀ Di Do k L : ℝ, R_cylinder Do Di k L = -R_cylinder Di Do k L) ∧
    (∀ Di Do k L : ℝ, 0 < Do → Do < Di → 0 < k → 0 < L →
      R_cylinder Di Do k L < 0) := by
  constructor
  · intro Di Do k L
    rw [R_cylinder_eq, R_cylinder_eq]
    rw [show Di / Do = (Do / Di)⁻¹ from (inv_div Do Di).symm, Real.log_inv]
    ring
  · intro Di Do k L hDo hlt hk hL
    have hDi : (0 : ℝ) < Di := hDo.trans hlt
    rw [R_cylinder_eq]
    apply div_neg_of_neg_of_pos
    · exact Real.log_neg (by positivity) ((div_lt_one hDi).mpr hlt)
    · positivity

/-- Witness for C10 at `Di = 1`, `Do = 1/2`, `k = 1`, `L = 1`. -/
theorem R_cylinder_antisymm_witness : R_cylinder 1 (1 / 2) 1 1 < 0 :=
  R_cylinder_antisymm.2 1 (1 / 2) 1 1 (by norm_num) (by norm_num)
    (by norm_num) (by norm_num)

/-- C4 counterexample: at `Do = Di = 0.9` the cylinder-resistance code
divides by `log(1) = 0`, which in Python raises `ZeroDivisionError`; the
call raises instead of returning any (non-finite) value. -/
theorem R_cylinder_equal_diameters_raises :
    R_cylinderE 0.9 0.9 20 10 = none := by
  unfold R_cylinderE
  rw [div_self (by norm_num : (0.9 : ℝ) ≠ 0)]
  norm_num [Real.log_one]

/-- C4 amended: on domain-violating inputs the functions raise rather
than return: any call of `R_cylinder` with `Do = Di ≠ 0` raises, as does
`k_to_thermal_resistivity` (and its inverse) at `0`. -/
theorem domain_violation_raises :
    (∀ Di k L : ℝ, Di ≠ 0 → R_cylinderE Di Di k L = none) ∧
    k_to_thermal_resistivityE 0 = none ∧
    thermal_resistivity_to_kE 0 = none := by
  refine ⟨fun Di k L h => ?_, rfl, rfl⟩
  unfold R_cylinderE
  rw [div_self h]
  norm_num [Real.log_one, h]

/-- Witness for C4 (amended) at `Di = Do = 1`, `k = 20`, `L = 10`. -/
theorem domain_violation_raises_witness : R_cylinderE 1 1 20 10 = none :=
  domain_violation_raises.1 1 20 10 (by norm_num)

end ht
